/-
Verification development for rocksdb-cloud's cloud layer
(src/cloud/db_cloud_impl.cc): a shallow embedding of the epoch-versioned
manifest synchronization protocol — epoch minting, the Epoch Roller
(MaybeRollNewEpoch), the Directory Reinitialization Oracle
(NeedsReinitialization), the Directory Sanitizer (SanitizeDirectory) and
the Checkpoint Replicator (Savepoint) — together with theorems settling
the specification's claims about them.

External collaborators (object store, local filesystem, registry) are
modelled as explicit inputs: fallible calls are fields of an environment
record returning `Except Err`, the local directory and the destination
bucket are explicit finite sets of names carried through each operation,
and side effects are recorded as an ordered event trace.
-/
import Mathlib

set_option autoImplicit false

namespace DbCloud

/-- Status kinds of rocksdb's `Status` that this code distinguishes:
NotFound drives fallback branches, InvalidArgument and NotSupported are
configuration errors, ioError stands for any other (fatal) failure. -/
inductive Err where
  | notFound
  | ioError
  | invalidArgument
  | notSupported
  deriving DecidableEq, Repr

/-- Whitespace as trimmed by the `trim` helper (space and tab). -/
def isWsChar (c : Char) : Bool :=
  c == ' ' || c == Char.ofNat 9

/-- Modelled from the spec: the `trim` helper (cloud/filename.h, not under
src/) removing leading and trailing whitespace from a string. -/
def trim (s : String) : String :=
  String.mk (((s.data.dropWhile isWsChar).reverse.dropWhile isWsChar).reverse)

/-- Modelled from the spec: the `rtrim_if` helper (cloud/filename.h, not
under src/) removing all trailing occurrences of a character; the spec
speaks of "trimming trailing separators" and "trimming of trailing
newline on read". -/
def rtrimIf (s : String) (c : Char) : String :=
  String.mk ((s.data.reverse.dropWhile (fun a => a == c)).reverse)

/-- Does the first list start with the second one? -/
def beginsWith : List Char → List Char → Bool
  | _, [] => true
  | [], _ :: _ => false
  | a :: as, b :: bs => a == b && beginsWith as bs

/-- Does `needle` occur as a contiguous substring of `hay`?  This is
`std::string::find(...) != npos`. -/
def containsSub (hay needle : List Char) : Bool :=
  match hay with
  | [] => needle.isEmpty
  | _ :: t => beginsWith hay needle || containsSub t needle

/-! ## XXH32

Modelled from the spec: the 32-bit hash function used by the epoch
minter is `XXH32` from util/xxhash.h (not under src/), the reference
xxHash-32 algorithm with seed 0: four lanes over 16-byte stripes, a
4-byte/1-byte tail, and an avalanche finalization, all on 32-bit words
(`% 2^32`). Input is the byte sequence of the string. -/

def prime1 : Nat := 2654435761
def prime2 : Nat := 2246822519
def prime3 : Nat := 3266489917
def prime4 : Nat := 668265263
def prime5 : Nat := 374761393

def mask32 (n : Nat) : Nat := n % 4294967296

/-- Rotate a 32-bit value left by `r` bits (for `0 < r < 32`). -/
def rotl32 (x r : Nat) : Nat :=
  mask32 (x * 2 ^ r) + x / 2 ^ (32 - r)

/-- Little-endian 32-bit word from four bytes. -/
def le32 (b0 b1 b2 b3 : Nat) : Nat :=
  b0 + 256 * (b1 + 256 * (b2 + 256 * b3))

/-- One accumulator round of XXH32. -/
def xxRound (acc lane : Nat) : Nat :=
  mask32 (rotl32 (mask32 (acc + mask32 (lane * prime2))) 13 * prime1)

/-- Consume all full 16-byte stripes, updating the four lanes; returns
the final lanes and the remaining bytes. -/
def xxStripes : List Nat → Nat → Nat → Nat → Nat →
    (Nat × Nat × Nat × Nat) × List Nat
  | b0 :: b1 :: b2 :: b3 :: b4 :: b5 :: b6 :: b7 ::
    b8 :: b9 :: b10 :: b11 :: b12 :: b13 :: b14 :: b15 :: rest,
    v1, v2, v3, v4 =>
    xxStripes rest
      (xxRound v1 (le32 b0 b1 b2 b3))
      (xxRound v2 (le32 b4 b5 b6 b7))
      (xxRound v3 (le32 b8 b9 b10 b11))
      (xxRound v4 (le32 b12 b13 b14 b15))
  | l, v1, v2, v3, v4 => ((v1, v2, v3, v4), l)

/-- Consume the tail: 4-byte words first, then single bytes. -/
def xxTail : List Nat → Nat → Nat
  | b0 :: b1 :: b2 :: b3 :: rest, h =>
    xxTail rest (mask32 (rotl32 (mask32 (h + mask32 (le32 b0 b1 b2 b3 * prime3))) 17 * prime4))
  | b :: rest, h =>
    xxTail rest (mask32 (rotl32 (mask32 (h + mask32 (b * prime5))) 11 * prime1))
  | [], h => h

/-- Final avalanche mixing of XXH32. -/
def xxAvalanche (h : Nat) : Nat :=
  let h1 := h ^^^ (h / 2 ^ 15)
  let h2 := mask32 (h1 * prime2)
  let h3 := h2 ^^^ (h2 / 2 ^ 13)
  let h4 := mask32 (h3 * prime3)
  h4 ^^^ (h4 / 2 ^ 16)

/-- XXH32 of a byte sequence with the given seed. -/
def xxh32 (input : List Nat) (seed : Nat) : Nat :=
  let len := input.length
  let start :=
    if 16 <= len then
      let sr := xxStripes input
        (mask32 (seed + prime1 + prime2))
        (mask32 (seed + prime2))
        (mask32 seed)
        (mask32 (seed + 4294967296 - prime1))
      (mask32 (rotl32 sr.1.1 1 + rotl32 sr.1.2.1 7 +
               rotl32 sr.1.2.2.1 12 + rotl32 sr.1.2.2.2 18), sr.2)
    else
      (mask32 (seed + prime5), input)
  xxAvalanche (xxTail start.2 (mask32 (start.1 + len)))

/-- The hexadecimal digit character for `n < 16` (lowercase). -/
def hexChar (n : Nat) : Char :=
  if n < 10 then Char.ofNat (48 + n) else Char.ofNat (87 + n)

/-- The 16 hex digits of a 64-bit value, most significant first, with
the leading zero digits stripped. -/
def hexTrimmed (n : Nat) : List Char :=
  (((List.range 16).reverse.map (fun i => hexChar (n / 16 ^ i % 16))).dropWhile
    (fun c => c == hexChar 0))

/-- Rendering of a 64-bit value the way `snprintf` with format
`"%0" PRIx64` does: the `0` flag without a field width has no effect, so
the output is the minimal lowercase hexadecimal representation (no
zero-padding), and `0` renders as a single digit. -/
def natToHex64 (n : Nat) : String :=
  if (hexTrimmed n).isEmpty then String.mk [hexChar 0] else String.mk (hexTrimmed n)

/-- `getNewEpoch` (db_cloud_impl.cc lines 70-79): split the unique-id
string into two halves at `size / 2`, hash each half with `XXH32(_, _, 0)`,
pack the two 32-bit results into one 64-bit value
`low + (hi << 32)`, and render it with `snprintf "%0" PRIx64`.
Characters stand for the bytes of the unique-id string (the generated
ids are ASCII). -/
def getNewEpoch (uniqueId : String) : String :=
  let bytes := uniqueId.data.map Char.toNat
  let split := bytes.length / 2
  let low := bytes.take split
  let hi := bytes.drop split
  let hash := xxh32 low 0 + xxh32 hi 0 * 4294967296
  natToHex64 hash

/-! ## File names and the CloudManifest

The CloudManifest is the ordered sequence of (starting file number,
epoch) records; the current epoch is the last record's epoch, or the
empty string for a document with no epochs (a brand-new or legacy
database). -/

/-- Modelled from the spec: `ManifestFileWithEpoch` (cloud/filename.h,
not under src/): the manifest file for an epoch, inside a directory or
object path; an empty epoch names the bare `MANIFEST` file (the legacy
pre-epoch convention the Migrator produces). -/
def manifestFileWithEpoch (dir epoch : String) : String :=
  if epoch == "" then dir ++ "/MANIFEST" else dir ++ "/MANIFEST-" ++ epoch

/-- Modelled from the spec: `CloudManifestFile` (cloud/filename.h, not
under src/): the CloudManifest document file inside a directory or
object path. -/
def cloudManifestFile (dir : String) : String :=
  dir ++ "/CLOUDMANIFEST"

/-- The dummy manifest filename that `MaybeRollNewEpoch` reads to
determine the maximum file number (db_cloud_impl.cc line 834). -/
def dummyManifestBase : String := "MANIFEST-000001"

/-- The placeholder line `SanitizeDirectory` writes into the local
CURRENT file (db_cloud_impl.cc lines 719-720): the fixed manifest name
followed by a newline. -/
def currentPlaceholderLine : String := "MANIFEST-000001\n"

/-- Current epoch of a CloudManifest: epoch of the last record, or `""`
when the document has no epochs. -/
def currentEpoch (m : List (Nat × String)) : String :=
  match m.getLast? with
  | some e => e.2
  | none => ""

/-- Insert a name in a set of file or object names (no duplicates). -/
def addFile (name : String) (files : List String) : List String :=
  if files.contains name then files else name :: files

/-! ## Epoch Roller — MaybeRollNewEpoch (db_cloud_impl.cc lines 809-882) -/

/-- Side effects of one `MaybeRollNewEpoch` call, in program order:
a local file rename, an object upload (`PutObject`) of a manifest file,
the serialization of the CloudManifest to the local document file, and
the object upload of the CloudManifest document. -/
inductive RollEvent where
  | renameLocal (oldName newName : String)
  | putObject (objName : String)
  | writeLocalCM
  | putCloudManifest (objName : String)
  deriving DecidableEq, Repr

/-- The collaborators `MaybeRollNewEpoch` consumes: the local directory
name, the destination bucket and object path, the freshly generated
unique id, the result of `ManifestReader::GetMaxFileNumberFromManifest`
(modelled from the spec as a read-only query: "determine the highest
data-file sequence number referenced by the existing placeholder
manifest; a not-found here means this is a brand-new database", §4.5
step 4; manifest_reader.cc is not under src/), and the outcomes of the
`PutObject` uploads and of the local CloudManifest serialization. -/
structure RollEnv where
  dir : String
  destBucket : String
  destPath : String
  uniqueId : String
  readMax : String → Except Err Nat
  putRes : String → Except Err Unit
  writeLocalRes : Except Err Unit

/-- State `MaybeRollNewEpoch` acts on: the names of the local files, the
names of the objects in the destination, and the in-memory CloudManifest.
(`Finalize` is structurally a no-op per §4.5 step 3 and is not tracked.) -/
structure RollState where
  localFiles : List String
  destObjects : List String
  manifest : List (Nat × String)
  deriving DecidableEq, Repr

/-- The no-roll condition (db_cloud_impl.cc line 817): the local
manifest file named for the current epoch exists and the epoch is
non-empty. -/
def noRollNeeded (dir : String) (s : RollState) : Bool :=
  s.localFiles.contains (manifestFileWithEpoch dir (currentEpoch s.manifest)) &&
  !(currentEpoch s.manifest == "")

/-- NotFound from the manifest read means a brand-new database:
`maxFileNumber = 0` (db_cloud_impl.cc lines 835-841). -/
def effMax (r : Except Err Nat) : Except Err Nat :=
  match r with
  | .error Err.notFound => .ok 0
  | .error e => .error e
  | .ok n => .ok n

/-- `DBCloudImpl::MaybeRollNewEpoch` (db_cloud_impl.cc lines 809-882).
If the local manifest for the current epoch exists and the epoch is
non-empty, finalize and return. Otherwise read the max file number from
the dummy manifest, mint a new epoch, append it, rename the local
manifest when `maxFileNumber > 0`, and — only when a destination bucket
is configured — upload the renamed manifest (only when
`maxFileNumber > 0`), serialize the CloudManifest locally, and upload
the CloudManifest document. -/
def maybeRollNewEpoch (env : RollEnv) (s : RollState) :
    Except Err (RollState × List RollEvent) :=
  if noRollNeeded env.dir s then .ok (s, [])
  else
    match effMax (env.readMax (env.dir ++ "/" ++ dummyManifestBase)) with
    | .error e => .error e
    | .ok maxFileNumber =>
      let oldEpoch := currentEpoch s.manifest
      let newEpoch := getNewEpoch env.uniqueId
      let oldName := manifestFileWithEpoch env.dir oldEpoch
      let newName := manifestFileWithEpoch env.dir newEpoch
      let s1 : RollState := { s with manifest := s.manifest ++ [(maxFileNumber, newEpoch)] }
      match (if 0 < maxFileNumber then
               (if s1.localFiles.contains oldName then
                  Except.ok ({ s1 with localFiles := addFile newName (s1.localFiles.erase oldName) },
                    ([RollEvent.renameLocal oldName newName] : List RollEvent))
                else Except.error Err.notFound)
             else Except.ok (s1, ([] : List RollEvent))) with
      | .error e => .error e
      | .ok (s2, evs2) =>
        if env.destBucket == "" then .ok (s2, evs2)
        else
          match (if 0 < maxFileNumber then
                   (match env.putRes (manifestFileWithEpoch env.destPath newEpoch) with
                    | .error e => Except.error e
                    | .ok _ => Except.ok
                        ({ s2 with destObjects := addFile (manifestFileWithEpoch env.destPath newEpoch) s2.destObjects },
                         evs2 ++ [RollEvent.putObject (manifestFileWithEpoch env.destPath newEpoch)]))
                 else Except.ok (s2, evs2)) with
          | .error e => .error e
          | .ok (s3, evs3) =>
            match env.writeLocalRes with
            | .error e => .error e
            | .ok _ =>
              let s4 : RollState := { s3 with localFiles := addFile (cloudManifestFile env.dir) s3.localFiles }
              let evs4 := evs3 ++ [RollEvent.writeLocalCM]
              match env.putRes (cloudManifestFile env.destPath) with
              | .error e => .error e
              | .ok _ =>
                .ok ({ s4 with destObjects := addFile (cloudManifestFile env.destPath) s4.destObjects },
                     evs4 ++ [RollEvent.putCloudManifest (cloudManifestFile env.destPath)])

/-- Pointer validity along a trace: replaying the uploads over the
initial destination object set, every upload of the CloudManifest
document finds the manifest object named `target` already present at
the destination. -/
def pointerValidAux (destNow : List String) (target cmName : String) :
    List RollEvent → Bool
  | [] => true
  | RollEvent.putObject o :: rest =>
    pointerValidAux (addFile o destNow) target cmName rest
  | RollEvent.putCloudManifest o :: rest =>
    (if o == cmName then destNow.contains target else true) &&
    pointerValidAux (addFile o destNow) target cmName rest
  | _ :: rest => pointerValidAux destNow target cmName rest

/-- Pointer validity for a roll whose resulting current epoch is
`epoch`: whenever the CloudManifest document is uploaded to the
destination, the destination already holds the manifest object named by
`epoch`. -/
def pointerValid (initDest : List String) (destPath epoch : String)
    (evs : List RollEvent) : Bool :=
  pointerValidAux initDest (manifestFileWithEpoch destPath epoch)
    (cloudManifestFile destPath) evs

/-! ## Directory Reinitialization Oracle — NeedsReinitialization
(db_cloud_impl.cc lines 319-534) -/

/-- The collaborators `NeedsReinitialization` consumes: the configured
buckets and the configured destination object path, the existence checks
of the local directory and its CURRENT file, the read of the local
IDENTITY file, and the registry lookups `GetPathForDbid` (dbid to stored
path) in the source and destination buckets. -/
structure ReinitEnv where
  srcBucket : String
  destBucket : String
  destPathConf : String
  dirCheck : Except Err Unit
  currentCheck : Except Err Unit
  identityRead : Except Err String
  srcLookup : String → Except Err String
  destLookup : String → Except Err String

/-- Source-registry step (db_cloud_impl.cc lines 389-411): when a source
bucket is configured, look up the local dbid; NotFound leaves the path
empty, any other failure is fatal; on success the stored path is trimmed
of trailing separators. -/
def srcRegistryStep (env : ReinitEnv) (dbid : String) : Except Err String :=
  if env.srcBucket == "" then Except.ok ""
  else
    match env.srcLookup dbid with
    | .error e => if e == Err.notFound then Except.ok "" else Except.error e
    | .ok p => Except.ok (rtrimIf (trim p) '/')

/-- Destination-registry step (db_cloud_impl.cc lines 416-453): as the
source step, but additionally the stored path must equal the configured
destination path after trimming, else the open fails with
InvalidArgument. -/
def destRegistryStep (env : ReinitEnv) (dbid : String) : Except Err String :=
  if env.destBucket == "" then Except.ok ""
  else
    match env.destLookup dbid with
    | .error e => if e == Err.notFound then Except.ok "" else Except.error e
    | .ok p =>
      let dp := rtrimIf (trim p) '/'
      if dp != rtrimIf (trim env.destPathConf) '/' then Except.error Err.invalidArgument
      else Except.ok dp

/-- Tail of `NeedsReinitialization` (db_cloud_impl.cc lines 454-533).
The locals `src_dbid` and `dest_dbid` are declared at lines 385 and 412
and never assigned anywhere in the function, so they are the empty
string here exactly as in the source; the two guarded blocks mirror
lines 455-485 and 488-518 (flattened: each early `return` becomes one
branch). -/
def needsReinitTail (env : ReinitEnv)
    (local_dbid src_object_path dest_object_path : String) : Except Err Bool :=
  let src_dbid := ""
  let dest_dbid := ""
  if src_dbid != "" && !(containsSub local_dbid.data src_dbid.data) then .ok true
  else if src_dbid != "" && local_dbid == src_dbid &&
          env.destBucket != "" && env.srcBucket != env.destBucket then .ok true
  else if dest_dbid != "" && !(containsSub local_dbid.data dest_dbid.data) then .ok true
  else if dest_dbid != "" && local_dbid == dest_dbid &&
          env.srcBucket != "" && env.srcBucket != env.destBucket then .ok true
  else if src_object_path == "" && dest_object_path == "" then .ok true
  else .ok false

/-- `DBCloudImpl::NeedsReinitialization` (db_cloud_impl.cc lines
319-534): `.ok b` is a successful call setting `*do_reinit = b`. -/
def needsReinitialization (env : ReinitEnv) : Except Err Bool :=
  if env.srcBucket == "" && env.destBucket == "" then .ok false
  else
    match env.dirCheck with
    | .error e => if e == Err.notFound then .ok true else .error e
    | .ok _ =>
      match env.currentCheck with
      | .error e => if e == Err.notFound then .ok true else .error e
      | .ok _ =>
        match env.identityRead with
        | .error e => if e == Err.notFound then .ok true else .error e
        | .ok raw =>
          let local_dbid := rtrimIf (trim raw) '\n'
          match srcRegistryStep env local_dbid with
          | .error e => .error e
          | .ok src_object_path =>
            match destRegistryStep env local_dbid with
            | .error e => .error e
            | .ok dest_object_path =>
              needsReinitTail env local_dbid src_object_path dest_object_path

/-! ## Directory Sanitizer — SanitizeDirectory
(db_cloud_impl.cc lines 539-730) -/

/-- The cloud backend kinds `SanitizeDirectory` distinguishes. -/
inductive CloudType where
  | kNone
  | kAws
  | kOther
  deriving DecidableEq, Repr

/-- Local directory state: whether the directory exists, and the local
files as (name, content) pairs; names are relative to the local
directory. -/
structure LocalState where
  dirExists : Bool
  files : List (String × String)
  deriving DecidableEq, Repr

/-- Side effects of one `SanitizeDirectory` call, in program order. -/
inductive SanEvent where
  | deleteFile (name : String)
  | createDir
  | writeFile (name content : String)
  | renameFile (oldName newName : String)
  deriving DecidableEq, Repr

/-- Remove a file from a (name, content) map. -/
def removeFile (name : String) (fs : List (String × String)) :
    List (String × String) :=
  fs.filter (fun f => !(f.1 == name))

/-- Write a file: replace any existing entry of that name. -/
def setFile (name content : String) (fs : List (String × String)) :
    List (String × String) :=
  (name, content) :: removeFile name fs

/-- Content of a file, if present. -/
def lookupFile (name : String) (fs : List (String × String)) : Option String :=
  (fs.find? (fun f => f.1 == name)).map Prod.snd

/-- The collaborators `SanitizeDirectory` consumes: the backend kind,
the configured buckets and object paths, the engine options it
validates, the configured dbid separator (`CloudEnvImpl::DBID_SEPARATOR`,
modelled from the spec as the configured separator; cloud_env_impl.h is
not under src/), the freshly generated unique id, the IDENTITY object
fetches from destination and source (`.ok content` materializes the
local IDENTITY file), and the Oracle's inputs. -/
structure SanEnv where
  cloudType : CloudType
  srcBucket : String
  srcPath : String
  destBucket : String
  destPath : String
  maxOpenFiles : Int
  keepLocalSstFiles : Bool
  readonly : Bool
  sep : String
  uniqueId : String
  destIdentityFetch : Except Err String
  srcIdentityFetch : Except Err String
  dirCheck : Except Err Unit
  currentCheck : Except Err Unit
  identityRead : Except Err String
  srcLookup : String → Except Err String
  destLookup : String → Except Err String

/-- The Oracle's environment as `SanitizeDirectory` invokes it. -/
def reinitEnvOf (env : SanEnv) : ReinitEnv :=
  { srcBucket := env.srcBucket
    destBucket := env.destBucket
    destPathConf := env.destPath
    dirCheck := env.dirCheck
    currentCheck := env.currentCheck
    identityRead := env.identityRead
    srcLookup := env.srcLookup
    destLookup := env.destLookup }

/-- Do source and destination denote the same location (same bucket and
same object path, db_cloud_impl.cc lines 639-641)? -/
def destEqualSrc (env : SanEnv) : Bool :=
  env.srcBucket == env.destBucket && env.srcPath == env.destPath

/-- Cleanup step (db_cloud_impl.cc lines 603-637): delete every local
file except those whose name begins with `LOG`; a missing directory is
tolerated (NotFound) and the directory is then created — unless the
open is read-only, in which case the NotFound is returned. -/
def cleanupStep (readonly : Bool) (s : LocalState) :
    Except Err (LocalState × List SanEvent) :=
  if s.dirExists then
    let kept := s.files.filter (fun f => beginsWith f.1.data ("LOG".data))
    let deleted := s.files.filter (fun f => !(beginsWith f.1.data ("LOG".data)))
    .ok ({ s with files := kept }, deleted.map (fun f => SanEvent.deleteFile f.1))
  else
    if readonly then .error Err.notFound
    else .ok ({ s with dirExists := true }, [SanEvent.createDir])

/-- IDENTITY download step (db_cloud_impl.cc lines 643-668): first try
the destination, then the source (only when the source is configured,
differs from the destination, and the destination yielded nothing).
Returns (state, got_identity_from_dest, got_identity_from_src, events).
Note that, as in the source (line 667), `got_identity_from_src` is set
to true even when the source fetch returned NotFound. -/
def fetchIdentityStep (env : SanEnv) (s : LocalState) :
    Except Err (LocalState × Bool × Bool × List SanEvent) :=
  match (if env.destBucket == "" then Except.ok (s, false, ([] : List SanEvent))
         else
           match env.destIdentityFetch with
           | .error e =>
             if e == Err.notFound then Except.ok (s, false, ([] : List SanEvent))
             else Except.error e
           | .ok content => Except.ok
               ({ s with files := setFile "IDENTITY" content s.files }, true,
                [SanEvent.writeFile "IDENTITY" content])) with
  | .error e => .error e
  | .ok (s1, gotDest, evs1) =>
    if env.srcBucket != "" && !(destEqualSrc env) && !gotDest then
      match env.srcIdentityFetch with
      | .error e =>
        if e == Err.notFound then .ok (s1, gotDest, true, evs1)
        else .error e
      | .ok content => .ok
          ({ s1 with files := setFile "IDENTITY" content s1.files }, gotDest, true,
           evs1 ++ [SanEvent.writeFile "IDENTITY" content])
    else .ok (s1, gotDest, false, evs1)

/-- `DBCloudImpl::CreateNewIdentityFile` (db_cloud_impl.cc lines
274-314): write the dbid to `IDENTITY.tmp`, then rename it to
`IDENTITY`. -/
def createNewIdentityFile (dbid : String) (s : LocalState) :
    LocalState × List SanEvent :=
  let s1 := { s with files := setFile "IDENTITY.tmp" dbid s.files }
  let s2 := { s1 with files := setFile "IDENTITY" dbid (removeFile "IDENTITY.tmp" s1.files) }
  (s2, [SanEvent.writeFile "IDENTITY.tmp" dbid,
        SanEvent.renameFile "IDENTITY.tmp" "IDENTITY"])

/-- `DBCloudImpl::SanitizeDirectory` (db_cloud_impl.cc lines 539-730). -/
def sanitizeDirectory (env : SanEnv) (s : LocalState) :
    Except Err (LocalState × List SanEvent) :=
  if env.cloudType == CloudType.kNone then .ok (s, [])
  else if !(env.cloudType == CloudType.kAws) then .error Err.notSupported
  else
    match needsReinitialization (reinitEnvOf env) with
    | .error e => .error e
    | .ok doReinit =>
      if env.destBucket == "" && !(env.maxOpenFiles == -1) then .error Err.invalidArgument
      else if env.destBucket == "" && !env.keepLocalSstFiles then .error Err.invalidArgument
      else if !doReinit then .ok (s, [])
      else
        match cleanupStep env.readonly s with
        | .error e => .error e
        | .ok (s1, evsA) =>
          match fetchIdentityStep env s1 with
          | .error e => .error e
          | .ok (s2, gotDest, gotSrc, evsB) =>
            if !gotSrc && !gotDest then .ok (s2, evsA ++ evsB)
            else
              match (if gotSrc && !(destEqualSrc env) && !(env.destBucket == "") then
                       match lookupFile "IDENTITY" s2.files with
                       | none => Except.error Err.notFound
                       | some raw =>
                         let srcDbid := rtrimIf (trim raw) '\n'
                         let newDbid := srcDbid ++ env.sep ++ env.uniqueId
                         Except.ok (createNewIdentityFile newDbid s2)
                     else Except.ok (s2, ([] : List SanEvent))) with
              | .error e => .error e
              | .ok (s3, evsC) =>
                let s4 := { s3 with files := setFile "CURRENT" currentPlaceholderLine s3.files }
                .ok (s4, evsA ++ evsB ++ evsC ++ [SanEvent.writeFile "CURRENT" currentPlaceholderLine])

/-! ## Checkpoint Replicator — Savepoint
(db_cloud_impl.cc lines 193-272) -/

/-- The collaborators `Savepoint` consumes: the configured buckets and
object paths, the `RemapFilename` mapping of the cloud environment, and
the outcome of each `CopyObject` call, per remapped file name. -/
structure SaveEnv where
  srcBucket : String
  srcPath : String
  destBucket : String
  destPath : String
  remap : String → String
  copyOk : String → Except Err Unit

/-- The files to copy (db_cloud_impl.cc lines 221-228): the remapped
live files whose destination object does not exist yet. -/
def savepointToCopy (env : SaveEnv) (live : List String)
    (dest : List String) : List String :=
  (live.map env.remap).filter
    (fun f => !(dest.contains (env.destPath ++ "/" ++ f)))

/-- The copy loop of one worker executed single-threadedly
(db_cloud_impl.cc lines 234-258 with `max_threads <= 1`): claim files in
order; on the first failing copy, record that error and stop claiming.
Returns (result, files for which a copy was issued, destination objects
after). -/
def copyLoop (env : SaveEnv) :
    List String → List String → Except Err Unit × List String × List String
  | [], dest => (.ok (), [], dest)
  | f :: rest, dest =>
    match env.copyOk f with
    | .error e => (.error e, [f], dest)
    | .ok _ =>
      match copyLoop env rest (addFile (env.destPath ++ "/" ++ f) dest) with
      | (r, issued, dest') => (r, f :: issued, dest')

/-- `DBCloudImpl::Savepoint` (db_cloud_impl.cc lines 193-272), sequential
execution: a no-op success when no destination is configured, else the
copy loop over the not-yet-present files. -/
def savepoint (env : SaveEnv) (live : List String) (dest : List String) :
    Except Err Unit × List String × List String :=
  if env.destPath == "" || env.destBucket == "" then (.ok (), [], dest)
  else copyLoop env (savepointToCopy env live dest) dest

/-! ## Helper lemmas -/

theorem currentEpoch_append (l : List (Nat × String)) (n : Nat) (e : String) :
    currentEpoch (l ++ [(n, e)]) = e := by
  unfold currentEpoch
  rw [List.getLast?_concat]

theorem natToHex64_ne_empty (n : Nat) : natToHex64 n ≠ "" := by
  unfold natToHex64
  split
  · intro h
    have := congrArg String.data h
    simp at this
  · intro h
    rename_i hne
    have hd := congrArg String.data h
    simp only [] at hd
    have : hexTrimmed n = [] := hd
    simp [this] at hne

theorem getNewEpoch_ne_empty (u : String) : getNewEpoch u ≠ "" :=
  natToHex64_ne_empty _

theorem contains_iff_mem (l : List String) (a : String) :
    l.contains a = true ↔ a ∈ l := by
  induction l with
  | nil => simp
  | cons x xs ih =>
    rw [List.contains_cons]
    simp only [Bool.or_eq_true, beq_iff_eq, List.mem_cons, ih]

theorem contains_addFile_self (a : String) (l : List String) :
    (addFile a l).contains a = true := by
  unfold addFile
  split
  · assumption
  · rw [List.contains_cons, beq_self_eq_true, Bool.true_or]

theorem contains_addFile_of (a x : String) (l : List String)
    (h : l.contains x = true) : (addFile a l).contains x = true := by
  unfold addFile
  split
  · exact h
  · rw [List.contains_cons, h, Bool.or_true]

/-! ## Concrete inputs used by counterexamples and witnesses -/

/-- A first roll on a brand-new database with a destination configured:
no local files, no destination objects, a CloudManifest with no epochs,
and the manifest read reporting NotFound. -/
def rollEnvFreshA : RollEnv :=
  { dir := "db", destBucket := "bucket", destPath := "dst", uniqueId := "",
    readMax := fun _ => .error Err.notFound, putRes := fun _ => .ok (),
    writeLocalRes := .ok () }

/-- A second roll on the same directory with a fresh unique id. -/
def rollEnvFreshB : RollEnv :=
  { rollEnvFreshA with uniqueId := "a" }

/-- The empty local/destination state of a brand-new database. -/
def rollStateFresh : RollState :=
  { localFiles := [], destObjects := [], manifest := [] }

/-- Result of the first fresh-database roll. -/
def rollResFreshA : RollState × List RollEvent :=
  match maybeRollNewEpoch rollEnvFreshA rollStateFresh with
  | .ok r => r
  | .error _ => (rollStateFresh, [])

/-- Result of the second fresh-database roll, started from the first
one's state. -/
def rollResFreshB : RollState × List RollEvent :=
  match maybeRollNewEpoch rollEnvFreshB rollResFreshA.1 with
  | .ok r => r
  | .error _ => (rollResFreshA.1, [])

/-! ## Claims -/

/-- C1 (counterexample): a successful `MaybeRollNewEpoch` call with a
destination bucket configured, on a brand-new database
(`maxFileNumber = 0`), publishes the CloudManifest document while the
manifest object named by its current epoch does not exist at the
destination — no manifest upload is issued at all, so the claimed
pointer validity fails at this input. -/
theorem c1_counterexample :
    maybeRollNewEpoch rollEnvFreshA rollStateFresh = .ok rollResFreshA ∧
    rollEnvFreshA.destBucket ≠ "" ∧
    pointerValid rollStateFresh.destObjects rollEnvFreshA.destPath
      (currentEpoch rollResFreshA.1.manifest) rollResFreshA.2 = false := by
  refine ⟨rfl, ?_, ?_⟩ <;> decide

/-- C2: the claim says `getNewEpoch` always returns exactly 16 hex
characters, and the code's own comment says it maps the unique id into a
16-byte string; but the format string `"%0" PRIx64` has a zero flag with
no field width, so nothing is padded: at the input `""` (both halves
empty, `XXH32("") = 0x02CC5D05` whose top nibble is zero) the result is
the 15-character string `"2cc5d0502cc5d05"`. -/
theorem c2_epoch_length_failing :
    getNewEpoch "" = "2cc5d0502cc5d05" ∧ (getNewEpoch "").length = 15 := by
  refine ⟨?_, ?_⟩ <;> decide

/-- C3 (counterexample): two successive `MaybeRollNewEpoch` calls with
no intervening writes, on a brand-new database with a destination
configured: both calls succeed, the second call mints a different
current epoch and uploads the CloudManifest document again. -/
theorem c3_counterexample :
    maybeRollNewEpoch rollEnvFreshA rollStateFresh = .ok rollResFreshA ∧
    maybeRollNewEpoch rollEnvFreshB rollResFreshA.1 = .ok rollResFreshB ∧
    currentEpoch rollResFreshB.1.manifest ≠ currentEpoch rollResFreshA.1.manifest ∧
    RollEvent.putCloudManifest (cloudManifestFile rollEnvFreshB.destPath) ∈ rollResFreshB.2 := by
  refine ⟨rfl, rfl, ?_, ?_⟩ <;> decide

/-- The inputs of the C4 scenario: the local directory is intact, its
dbid is registered in both the source and the destination registries at
exactly the configured paths (so both registry entries resolve to the
local dbid), and the configured source and destination locations
differ. -/
def reinitEnvSameDbid : ReinitEnv :=
  { srcBucket := "sb", destBucket := "db2", destPathConf := "dp",
    dirCheck := .ok (), currentCheck := .ok (),
    identityRead := .ok "dbid1",
    srcLookup := fun d => if d == "dbid1" then .ok "sp" else .error Err.notFound,
    destLookup := fun d => if d == "dbid1" then .ok "dp" else .error Err.notFound }

/-- C4: the claim (and the spec) say this origin-database scenario with
differing source and destination must report needs-reinit = true; the
code reports false, because the locals `src_dbid` and `dest_dbid`
(db_cloud_impl.cc lines 385, 412) are never assigned, so the same-dbid
clone-mode checks at lines 455-517 are dead code and the function falls
through to the both-registry-entries-found success path. -/
theorem c4_same_dbid_check_dead :
    needsReinitialization reinitEnvSameDbid = .ok false := by
  rfl

/-- The inputs of the C5 scenario: source and destination are both
configured and different, the local directory is missing (so the Oracle
orders a reinitialization), and the IDENTITY fetch yields NotFound at
both the destination and the source. -/
def sanEnvNoIdentity : SanEnv :=
  { cloudType := CloudType.kAws, srcBucket := "sb", srcPath := "sp",
    destBucket := "db2", destPath := "dp", maxOpenFiles := -1,
    keepLocalSstFiles := true, readonly := false, sep := "rockset",
    uniqueId := "uid1", destIdentityFetch := .error Err.notFound,
    srcIdentityFetch := .error Err.notFound,
    dirCheck := .error Err.notFound, currentCheck := .ok (),
    identityRead := .error Err.notFound,
    srcLookup := fun _ => .error Err.notFound,
    destLookup := fun _ => .error Err.notFound }

/-- C5: the claim (and the code's own comment at lines 671-672, and the
spec) say that when neither location yields an identity the call returns
success so a new database can be created; but line 667 sets
`got_identity_from_src = true` even when the source fetch returned
NotFound, so the call enters the clone-bootstrap path and fails with the
NotFound from reading the local IDENTITY file that was never
downloaded. -/
theorem c5_both_not_found_returns_error :
    sanitizeDirectory sanEnvNoIdentity { dirExists := false, files := [] } =
      .error Err.notFound := by
  rfl

/-- C6: if a destination registry entry exists for the local dbid and
its stored path, after trimming, differs from the configured destination
path, `NeedsReinitialization` fails with InvalidArgument instead of
producing any needs-reinit verdict. The hypotheses pin the earlier
steps: some bucket is configured, the local directory, CURRENT file and
IDENTITY file are present, and the source-registry step did not fail
hard. -/
theorem c6_dest_path_mismatch_fatal (env : ReinitEnv) (raw p q : String)
    (hdb : env.destBucket ≠ "")
    (hdir : env.dirCheck = .ok ())
    (hcur : env.currentCheck = .ok ())
    (hid : env.identityRead = .ok raw)
    (hsrc : srcRegistryStep env (rtrimIf (trim raw) '\n') = .ok q)
    (hdl : env.destLookup (rtrimIf (trim raw) '\n') = .ok p)
    (hne : rtrimIf (trim p) '/' ≠ rtrimIf (trim env.destPathConf) '/') :
    needsReinitialization env = .error Err.invalidArgument := by
  have hdb' : (env.destBucket == "") = false := beq_eq_false_iff_ne.mpr hdb
  have hdst : destRegistryStep env (rtrimIf (trim raw) '\n') =
      .error Err.invalidArgument := by
    unfold destRegistryStep
    rw [hdb']
    simp only [Bool.false_eq_true, if_false, hdl]
    rw [if_pos (bne_iff_ne.mpr hne)]
  have h1 : (env.srcBucket == "" && env.destBucket == "") = false := by
    rw [hdb', Bool.and_false]
  simp only [needsReinitialization, h1, Bool.false_eq_true, if_false,
    hdir, hcur, hid, hsrc, hdst]

/-- The environment of the C6 witness: only a destination is
configured, the registry stores path "otherpath" for the local dbid
while the process is configured with "confpath". -/
def reinitEnvMismatch : ReinitEnv :=
  { srcBucket := "", destBucket := "b", destPathConf := "confpath",
    dirCheck := .ok (), currentCheck := .ok (), identityRead := .ok "id1",
    srcLookup := fun _ => .error Err.notFound,
    destLookup := fun _ => .ok "otherpath" }

/-- Witness for C6 at a concrete input. -/
theorem c6_dest_path_mismatch_fatal_witness :
    needsReinitialization reinitEnvMismatch = .error Err.invalidArgument :=
  c6_dest_path_mismatch_fatal reinitEnvMismatch "id1" "otherpath" ""
    (by decide) rfl rfl rfl rfl rfl (by decide)

/-- C9: with no destination bucket configured, a `MaybeRollNewEpoch`
call that mints a new epoch performs no uploads and does not write the
local CLOUDMANIFEST document: destination objects are unchanged, the new
epoch is appended only to the in-memory CloudManifest, and the only
local-file change (and the only event) is the rename to the new-epoch
name, which happens exactly when `maxFileNumber > 0`. -/
theorem c9_no_dest_frame (env : RollEnv) (s s' : RollState)
    (evs : List RollEvent) (m : Nat)
    (hdest : env.destBucket = "")
    (hroll : noRollNeeded env.dir s = false)
    (hm : effMax (env.readMax (env.dir ++ "/" ++ dummyManifestBase)) = .ok m)
    (hrun : maybeRollNewEpoch env s = .ok (s', evs)) :
    s'.destObjects = s.destObjects ∧
    s'.manifest = s.manifest ++ [(m, getNewEpoch env.uniqueId)] ∧
    (0 < m →
      s'.localFiles = addFile (manifestFileWithEpoch env.dir (getNewEpoch env.uniqueId))
        (s.localFiles.erase (manifestFileWithEpoch env.dir (currentEpoch s.manifest))) ∧
      evs = [RollEvent.renameLocal (manifestFileWithEpoch env.dir (currentEpoch s.manifest))
               (manifestFileWithEpoch env.dir (getNewEpoch env.uniqueId))]) ∧
    (m = 0 → s'.localFiles = s.localFiles ∧ evs = []) := by
  have hdest' : (env.destBucket == "") = true := by
    simp [hdest]
  simp only [maybeRollNewEpoch, hroll, Bool.false_eq_true, if_false, hm] at hrun
  rcases Nat.eq_zero_or_pos m with hm0 | hmpos
  · subst hm0
    simp only [Nat.lt_irrefl, if_false, hdest', if_true] at hrun
    cases hrun
    refine ⟨rfl, rfl, ?_, ?_⟩
    · intro h
      exact absurd h (Nat.lt_irrefl 0)
    · intro _
      exact ⟨rfl, rfl⟩
  · rw [if_pos hmpos] at hrun
    by_cases hc : s.localFiles.contains (manifestFileWithEpoch env.dir (currentEpoch s.manifest)) = true
    · simp only [hc, if_true, hdest', if_true] at hrun
      cases hrun
      refine ⟨rfl, rfl, ?_, ?_⟩
      · intro _
        exact ⟨rfl, rfl⟩
      · intro h0
        exact absurd hmpos (by simp [h0])
    · simp only [Bool.not_eq_true] at hc
      simp only [hc, Bool.false_eq_true, if_false] at hrun
      exact Except.noConfusion hrun

/-- A legacy pre-epoch local directory: the migrated bare `MANIFEST`
file is present and the CloudManifest has no epochs yet (current epoch
`""`), so a roll is required and the rename path runs. -/
def rollStateLegacy : RollState :=
  { localFiles := ["db/MANIFEST"], destObjects := [], manifest := [] }

/-- A roll environment with no destination bucket and an established
database (max file number 5). -/
def rollEnvNoDest : RollEnv :=
  { dir := "db", destBucket := "", destPath := "", uniqueId := "u",
    readMax := fun _ => .ok 5, putRes := fun _ => .ok (),
    writeLocalRes := .ok () }

/-- Result of the no-destination legacy roll. -/
def rollResNoDest : RollState × List RollEvent :=
  match maybeRollNewEpoch rollEnvNoDest rollStateLegacy with
  | .ok r => r
  | .error _ => (rollStateLegacy, [])

/-- Witness for C9 at a concrete input. -/
theorem c9_no_dest_frame_witness :
    rollResNoDest.1.destObjects = rollStateLegacy.destObjects ∧
    rollResNoDest.1.manifest =
      rollStateLegacy.manifest ++ [(5, getNewEpoch rollEnvNoDest.uniqueId)] := by
  have h := c9_no_dest_frame rollEnvNoDest rollStateLegacy
    rollResNoDest.1 rollResNoDest.2 5 rfl (by decide) rfl rfl
  exact ⟨h.1, h.2.1⟩

/-- C1 (amended): for a successful `MaybeRollNewEpoch` call with a
destination bucket configured and `maxFileNumber > 0`, pointer validity
holds — whenever the CloudManifest document is uploaded, the manifest
object named by the resulting current epoch is already present at the
destination — and the upload of the renamed manifest file under the
new-epoch name occurs at a strictly earlier position of the trace than
the upload of the CloudManifest document. -/
theorem c1_amended_pointer_validity (env : RollEnv) (s s' : RollState)
    (evs : List RollEvent) (m : Nat)
    (hdest : env.destBucket ≠ "")
    (hm : effMax (env.readMax (env.dir ++ "/" ++ dummyManifestBase)) = .ok m)
    (hmpos : 0 < m)
    (hrun : maybeRollNewEpoch env s = .ok (s', evs)) :
    pointerValid s.destObjects env.destPath (currentEpoch s'.manifest) evs = true ∧
    ∀ (j : Nat) (o : String), evs[j]? = some (RollEvent.putCloudManifest o) →
      ∃ i, i < j ∧ evs[i]? = some (RollEvent.putObject
        (manifestFileWithEpoch env.destPath (currentEpoch s'.manifest))) := by
  have hdest' : (env.destBucket == "") = false := beq_eq_false_iff_ne.mpr hdest
  by_cases hnr : noRollNeeded env.dir s = true
  · simp only [maybeRollNewEpoch, hnr, if_true] at hrun
    cases hrun
    constructor
    · rfl
    · intro j o hj
      simp at hj
  · simp only [Bool.not_eq_true] at hnr
    simp only [maybeRollNewEpoch, hnr, Bool.false_eq_true, if_false, hm,
      if_pos hmpos] at hrun
    by_cases hc : s.localFiles.contains
        (manifestFileWithEpoch env.dir (currentEpoch s.manifest)) = true
    · simp only [hc, if_true, hdest', Bool.false_eq_true, if_false] at hrun
      cases hput1 : env.putRes (manifestFileWithEpoch env.destPath (getNewEpoch env.uniqueId)) with
      | error e =>
        rw [hput1] at hrun
        exact Except.noConfusion hrun
      | ok u =>
        rw [hput1] at hrun
        cases hw : env.writeLocalRes with
        | error e =>
          rw [hw] at hrun
          exact Except.noConfusion hrun
        | ok w =>
          rw [hw] at hrun
          cases hput2 : env.putRes (cloudManifestFile env.destPath) with
          | error e =>
            rw [hput2] at hrun
            exact Except.noConfusion hrun
          | ok v =>
            rw [hput2] at hrun
            simp only [Except.ok.injEq, Prod.mk.injEq] at hrun
            obtain ⟨hs', hevs⟩ := hrun
            have hep : currentEpoch s'.manifest = getNewEpoch env.uniqueId := by
              rw [← hs']
              exact currentEpoch_append _ _ _
            constructor
            · rw [← hevs, hep]
              simp only [pointerValid, pointerValidAux, beq_self_eq_true, if_true]
              rw [contains_addFile_self]
              rfl
            · intro j o hj
              rw [← hevs] at hj ⊢
              match j with
              | 0 => simp at hj
              | 1 => simp at hj
              | 2 => simp at hj
              | 3 =>
                refine ⟨1, by omega, ?_⟩
                rw [hep]
                rfl
              | n + 4 => simp at hj
    · simp only [Bool.not_eq_true] at hc
      simp only [hc, Bool.false_eq_true, if_false] at hrun
      exact Except.noConfusion hrun

/-- A roll environment with a destination configured and an established
database (max file number 5). -/
def rollEnvLegacyDest : RollEnv :=
  { dir := "db", destBucket := "b", destPath := "dst", uniqueId := "u",
    readMax := fun _ => .ok 5, putRes := fun _ => .ok (),
    writeLocalRes := .ok () }

/-- Result of the legacy roll with a destination configured. -/
def rollResLegacyDest : RollState × List RollEvent :=
  match maybeRollNewEpoch rollEnvLegacyDest rollStateLegacy with
  | .ok r => r
  | .error _ => (rollStateLegacy, [])

/-- Witness for the amended C1 at a concrete input. -/
theorem c1_amended_pointer_validity_witness :
    pointerValid rollStateLegacy.destObjects rollEnvLegacyDest.destPath
      (currentEpoch rollResLegacyDest.1.manifest) rollResLegacyDest.2 = true :=
  (c1_amended_pointer_validity rollEnvLegacyDest rollStateLegacy
    rollResLegacyDest.1 rollResLegacyDest.2 5 (by decide) rfl (by decide) rfl).1

/-- C3 (amended): the conditional no-op as claimed, and idempotence of
a second roll call on the same directory, provided the first call was a
no-op or rolled with `maxFileNumber > 0`: the second call returns the
same state with an empty event trace — same current epoch, no uploads. -/
theorem c3_amended_idempotent_roll (env1 env2 : RollEnv) (s s1 : RollState)
    (evs1 : List RollEvent)
    (hdir : env2.dir = env1.dir)
    (h1 : maybeRollNewEpoch env1 s = .ok (s1, evs1))
    (hcase : noRollNeeded env1.dir s = true ∨
      ∀ m, effMax (env1.readMax (env1.dir ++ "/" ++ dummyManifestBase)) = .ok m → 0 < m) :
    (noRollNeeded env1.dir s = true → s1 = s ∧ evs1 = []) ∧
    maybeRollNewEpoch env2 s1 = .ok (s1, []) := by
  by_cases hnr : noRollNeeded env1.dir s = true
  · simp only [maybeRollNewEpoch, hnr, if_true] at h1
    simp only [Except.ok.injEq, Prod.mk.injEq] at h1
    obtain ⟨hs1, hevs1⟩ := h1
    subst hs1
    constructor
    · intro _
      exact ⟨rfl, hevs1.symm⟩
    · simp only [maybeRollNewEpoch, hdir, hnr, if_true]
  · simp only [Bool.not_eq_true] at hnr
    rcases hcase with hcontra | hpos
    · rw [hnr] at hcontra
      exact Bool.noConfusion hcontra
    · cases hm : effMax (env1.readMax (env1.dir ++ "/" ++ dummyManifestBase)) with
      | error e =>
        simp only [maybeRollNewEpoch, hnr, Bool.false_eq_true, if_false, hm] at h1
        exact Except.noConfusion h1
      | ok m =>
        have hmpos := hpos m hm
        simp only [maybeRollNewEpoch, hnr, Bool.false_eq_true, if_false, hm,
          if_pos hmpos] at h1
        by_cases hc : s.localFiles.contains
            (manifestFileWithEpoch env1.dir (currentEpoch s.manifest)) = true
        · simp only [hc, if_true] at h1
          have hnonempty : (getNewEpoch env1.uniqueId == "") = false :=
            beq_eq_false_iff_ne.mpr (getNewEpoch_ne_empty _)
          by_cases hdb : (env1.destBucket == "") = true
          · simp only [hdb, if_true] at h1
            simp only [Except.ok.injEq, Prod.mk.injEq] at h1
            obtain ⟨hs1, _⟩ := h1
            have hroll2 : noRollNeeded env2.dir s1 = true := by
              unfold noRollNeeded
              rw [hdir, ← hs1]
              simp only [currentEpoch_append, hnonempty, Bool.not_false, Bool.and_true]
              exact contains_addFile_self _ _
            constructor
            · intro h
              rw [hnr] at h
              exact Bool.noConfusion h
            · simp only [maybeRollNewEpoch, hroll2, if_true]
          · simp only [Bool.not_eq_true] at hdb
            simp only [hdb, Bool.false_eq_true, if_false] at h1
            cases hput1 : env1.putRes (manifestFileWithEpoch env1.destPath (getNewEpoch env1.uniqueId)) with
            | error e =>
              rw [hput1] at h1
              exact Except.noConfusion h1
            | ok u =>
              rw [hput1] at h1
              cases hw : env1.writeLocalRes with
              | error e =>
                rw [hw] at h1
                exact Except.noConfusion h1
              | ok w =>
                rw [hw] at h1
                cases hput2 : env1.putRes (cloudManifestFile env1.destPath) with
                | error e =>
                  rw [hput2] at h1
                  exact Except.noConfusion h1
                | ok v =>
                  rw [hput2] at h1
                  simp only [Except.ok.injEq, Prod.mk.injEq] at h1
                  obtain ⟨hs1, _⟩ := h1
                  have hroll2 : noRollNeeded env2.dir s1 = true := by
                    unfold noRollNeeded
                    rw [hdir, ← hs1]
                    simp only [currentEpoch_append, hnonempty, Bool.not_false, Bool.and_true]
                    exact contains_addFile_of _ _ _ (contains_addFile_self _ _)
                  constructor
                  · intro h
                    rw [hnr] at h
                    exact Bool.noConfusion h
                  · simp only [maybeRollNewEpoch, hroll2, if_true]
        · simp only [Bool.not_eq_true] at hc
          simp only [hc, Bool.false_eq_true, if_false] at h1
          exact Except.noConfusion h1

/-- The second-call environment of the C3 witness: same directory,
fresh unique id. -/
def rollEnvLegacyDestB : RollEnv :=
  { rollEnvLegacyDest with uniqueId := "v" }

/-- Witness for the amended C3 at a concrete input: the second call
returns the first call's state unchanged with no events. -/
theorem c3_amended_idempotent_roll_witness :
    maybeRollNewEpoch rollEnvLegacyDestB rollResLegacyDest.1 =
      .ok (rollResLegacyDest.1, []) :=
  (c3_amended_idempotent_roll rollEnvLegacyDest rollEnvLegacyDestB
    rollStateLegacy rollResLegacyDest.1 rollResLegacyDest.2 rfl rfl
    (Or.inr (fun m hm => by
      simp only [effMax] at hm
      cases hm
      decide))).2

theorem length_filter_not_add {α : Type} (p : α → Bool) (l : List α) :
    (l.filter (fun a => !(p a))).length + (l.filter p).length = l.length := by
  induction l with
  | nil => rfl
  | cons a l ih =>
    by_cases h : p a = true <;>
      simp only [List.filter_cons, h, Bool.not_true, Bool.not_false,
        Bool.false_eq_true, if_false, if_true, List.length_cons] <;>
      omega

theorem length_filter_map {α β : Type} (g : α → β) (q : β → Bool) (l : List α) :
    ((l.map g).filter q).length = (l.filter (fun a => q (g a))).length := by
  induction l with
  | nil => rfl
  | cons a l ih =>
    by_cases h : q (g a) = true <;>
      simp [List.filter_cons, h, ih]

theorem copyLoop_ok_iff (env : SaveEnv) (l dest : List String) :
    (copyLoop env l dest).1 = .ok () ↔ ∀ f ∈ l, env.copyOk f = .ok () := by
  induction l generalizing dest with
  | nil => simp [copyLoop]
  | cons f rest ih =>
    cases hc : env.copyOk f with
    | error e =>
      simp only [copyLoop, hc, List.forall_mem_cons]
      constructor
      · intro h
        exact Except.noConfusion h
      · intro h
        exact Except.noConfusion h.1
    | ok u =>
      simp only [copyLoop, hc, List.forall_mem_cons]
      rw [ih]
      simp

theorem copyLoop_mono (env : SaveEnv) (l : List String) :
    ∀ (dest : List String) (x : String), dest.contains x = true →
      (copyLoop env l dest).2.2.contains x = true := by
  induction l with
  | nil =>
    intro dest x hx
    simpa [copyLoop] using hx
  | cons f rest ih =>
    intro dest x hx
    cases hc : env.copyOk f with
    | error e => simpa [copyLoop, hc] using hx
    | ok u =>
      simp only [copyLoop, hc]
      exact ih _ _ (contains_addFile_of _ _ _ hx)

theorem copyLoop_all_ok (env : SaveEnv) (l : List String) :
    ∀ (dest : List String), (∀ f ∈ l, env.copyOk f = .ok ()) →
      (copyLoop env l dest).2.1 = l ∧
      ∀ f ∈ l, (copyLoop env l dest).2.2.contains (env.destPath ++ "/" ++ f) = true := by
  induction l with
  | nil =>
    intro dest _
    simp [copyLoop]
  | cons f rest ih =>
    intro dest hok
    have hcf := hok f (List.mem_cons_self f rest)
    simp only [copyLoop, hcf]
    have ihr := ih (addFile (env.destPath ++ "/" ++ f) dest)
      (fun g hg => hok g (List.mem_cons_of_mem _ hg))
    constructor
    · simp [ihr.1]
    · intro g hg
      rcases List.mem_cons.mp hg with rfl | hg'
      · exact copyLoop_mono env rest _ _ (contains_addFile_self _ _)
      · exact ihr.2 g hg'

/-- C8: with a destination configured, `Savepoint` returns success
exactly when every issued copy succeeded; on success, the issued copies
are exactly the live files not yet present at the destination — their
number is N − M for N live files of which M were already present, and
each is claimed exactly once — and afterwards every live file exists at
the destination. (Sequential execution, the code's
`max_file_opening_threads <= 1` path; the thread pool claims the same
set of files through the shared cursor.) -/
theorem c8_savepoint_completeness (env : SaveEnv) (live dest : List String)
    (res : Except Err Unit) (issued dest' : List String)
    (hp : env.destPath ≠ "") (hb : env.destBucket ≠ "")
    (hrun : savepoint env live dest = (res, issued, dest')) :
    (res = .ok () ↔ ∀ f ∈ savepointToCopy env live dest, env.copyOk f = .ok ()) ∧
    (res = .ok () →
      issued = savepointToCopy env live dest ∧
      issued.length = live.length -
        (live.filter (fun f => dest.contains (env.destPath ++ "/" ++ env.remap f))).length ∧
      ((live.map env.remap).Nodup → ∀ f ∈ issued, List.count f issued = 1) ∧
      ∀ f ∈ live, dest'.contains (env.destPath ++ "/" ++ env.remap f) = true) := by
  have hcond : (env.destPath == "" || env.destBucket == "") = false := by
    rw [beq_eq_false_iff_ne.mpr hp, beq_eq_false_iff_ne.mpr hb, Bool.or_false]
  rw [savepoint, hcond] at hrun
  simp only [Bool.false_eq_true, if_false] at hrun
  have h1 : (copyLoop env (savepointToCopy env live dest) dest).1 = res := by
    rw [hrun]
  have h21 : (copyLoop env (savepointToCopy env live dest) dest).2.1 = issued := by
    rw [hrun]
  have h22 : (copyLoop env (savepointToCopy env live dest) dest).2.2 = dest' := by
    rw [hrun]
  constructor
  · rw [← h1]
    exact copyLoop_ok_iff env _ dest
  · intro hok
    have hall : ∀ f ∈ savepointToCopy env live dest, env.copyOk f = .ok () := by
      rw [← h1] at hok
      exact (copyLoop_ok_iff env _ dest).mp hok
    have hco := copyLoop_all_ok env (savepointToCopy env live dest) dest hall
    have hiss : issued = savepointToCopy env live dest := by
      rw [← h21, hco.1]
    refine ⟨hiss, ?_, ?_, ?_⟩
    · rw [hiss]
      unfold savepointToCopy
      rw [length_filter_map]
      have := length_filter_not_add
        (fun f => dest.contains (env.destPath ++ "/" ++ env.remap f)) live
      have hle := List.length_filter_le
        (fun f => dest.contains (env.destPath ++ "/" ++ env.remap f)) live
      omega
    · intro hnd f hf
      have hnd' : issued.Nodup := by
        rw [hiss]
        exact List.Nodup.filter _ hnd
      exact List.count_eq_one_of_mem hnd' hf
    · intro f hf
      by_cases hpres : dest.contains (env.destPath ++ "/" ++ env.remap f) = true
      · rw [← h22]
        exact copyLoop_mono env _ dest _ hpres
      · have hmem : env.remap f ∈ savepointToCopy env live dest := by
          unfold savepointToCopy
          refine List.mem_filter.mpr ⟨List.mem_map_of_mem _ hf, ?_⟩
          simp only [Bool.not_eq_true] at hpres
          rw [hpres]
          rfl
        rw [← h22]
        exact hco.2 _ hmem

/-- The environment and inputs of the C8 witness: three live files, one
already present at the destination, all copies succeed. -/
def saveEnvW : SaveEnv :=
  { srcBucket := "sb", srcPath := "sp", destBucket := "b", destPath := "dp",
    remap := fun x => x, copyOk := fun _ => .ok () }

/-- Result of the witness Savepoint run. -/
def saveResW : Except Err Unit × List String × List String :=
  savepoint saveEnvW ["f1", "f2", "f3"] ["dp/f2"]

/-- Witness for C8 at a concrete input: success, two copies issued
(N − M = 3 − 1), and all three files present at the destination. -/
theorem c8_savepoint_completeness_witness :
    saveResW.1 = .ok () ∧
    saveResW.2.1.length = 2 ∧
    ∀ f ∈ ["f1", "f2", "f3"], saveResW.2.2.contains ("dp/" ++ f) = true := by
  have h := c8_savepoint_completeness saveEnvW ["f1", "f2", "f3"] ["dp/f2"]
    saveResW.1 saveResW.2.1 saveResW.2.2 (by decide) (by decide) rfl
  have hok : saveResW.1 = .ok () := by
    rw [h.1]
    intro f _
    rfl
  have h2 := h.2 hok
  refine ⟨hok, ?_, ?_⟩
  · rw [h2.2.1]
    decide
  · intro f hf
    exact h2.2.2.2 f hf

theorem str_len_pos (s : String) (h : s ≠ "") : 0 < s.length := by
  rcases s with ⟨data⟩
  cases data with
  | nil => exact absurd rfl h
  | cons a l => exact Nat.succ_pos _

theorem lookupFile_setFile_self (n c : String) (fs : List (String × String)) :
    lookupFile n (setFile n c fs) = some c := by
  unfold lookupFile setFile
  rw [List.find?_cons_of_pos]
  · rfl
  · exact beq_self_eq_true n

theorem lookupFile_removeFile_other (n m : String) (hm : (m == n) = false) (fs : List (String × String)) :
    lookupFile m (removeFile n fs) = lookupFile m fs := by
  have hmn : m ≠ n := beq_eq_false_iff_ne.mp hm
  unfold lookupFile removeFile
  induction fs with
  | nil => rfl
  | cons a l ih =>
    by_cases ha : (a.1 == n) = true
    · have ham : (a.1 == m) = false := by
        rw [beq_eq_false_iff_ne]
        rw [beq_iff_eq.mp ha]
        exact fun he => hmn he.symm
      simp only [List.filter_cons, ha, Bool.not_true, Bool.false_eq_true, if_false,
        List.find?_cons, ham]
      exact ih
    · simp only [Bool.not_eq_true] at ha
      simp only [List.filter_cons, ha, Bool.not_false, if_true, List.find?_cons]
      by_cases ham : (a.1 == m) = true
      · rw [ham]
      · simp only [Bool.not_eq_true] at ham
        rw [ham]
        exact ih

theorem lookupFile_removeFile_self (n : String) (fs : List (String × String)) :
    lookupFile n (removeFile n fs) = none := by
  unfold lookupFile removeFile
  induction fs with
  | nil => rfl
  | cons a l ih =>
    by_cases ha : (a.1 == n) = true
    · simp only [List.filter_cons, ha, Bool.not_true, Bool.false_eq_true, if_false]
      exact ih
    · simp only [Bool.not_eq_true] at ha
      simp only [List.filter_cons, ha, Bool.not_false, if_true, List.find?_cons, ha]
      exact ih

theorem lookupFile_setFile_other (n m c : String) (hm : (m == n) = false)
    (fs : List (String × String)) :
    lookupFile m (setFile n c fs) = lookupFile m fs := by
  have hnm : (n == m) = false := by
    rw [beq_eq_false_iff_ne]
    exact fun he => beq_eq_false_iff_ne.mp hm he.symm
  unfold setFile
  rw [show lookupFile m ((n, c) :: removeFile n fs) = lookupFile m (removeFile n fs) by
    unfold lookupFile
    rw [List.find?_cons, hnm]]
  exact lookupFile_removeFile_other n m hm fs

/-- C7: when `SanitizeDirectory` bootstraps a clone — identity obtained
from the source only, source location different from destination, a
destination bucket configured — the synthesized dbid is the source dbid
followed by the configured separator and the freshly generated unique
suffix: it starts with the source dbid, it differs from it (the suffix
is non-empty), it ends up as the content of the local IDENTITY file, no
temporary file remains, and the trace writes `IDENTITY.tmp` first and
then renames it to `IDENTITY`. -/
theorem c7_clone_dbid_lineage (env : SanEnv) (s s' : LocalState)
    (evs : List SanEvent) (raw : String)
    (htype : env.cloudType = CloudType.kAws)
    (hreinit : needsReinitialization (reinitEnvOf env) = .ok true)
    (hdb : env.destBucket ≠ "")
    (hneq : destEqualSrc env = false)
    (hsb : env.srcBucket ≠ "")
    (hdfetch : env.destIdentityFetch = .error Err.notFound)
    (hsfetch : env.srcIdentityFetch = .ok raw)
    (huid : env.uniqueId ≠ "")
    (hrun : sanitizeDirectory env s = .ok (s', evs)) :
    lookupFile "IDENTITY" s'.files =
      some (rtrimIf (trim raw) '\n' ++ env.sep ++ env.uniqueId) ∧
    (∃ t, rtrimIf (trim raw) '\n' ++ env.sep ++ env.uniqueId =
       rtrimIf (trim raw) '\n' ++ t ∧ t ≠ "") ∧
    rtrimIf (trim raw) '\n' ++ env.sep ++ env.uniqueId ≠ rtrimIf (trim raw) '\n' ∧
    lookupFile "IDENTITY.tmp" s'.files = none ∧
    ∃ l1 l2 l3, evs = l1 ++
      SanEvent.writeFile "IDENTITY.tmp" (rtrimIf (trim raw) '\n' ++ env.sep ++ env.uniqueId) ::
      (l2 ++ SanEvent.renameFile "IDENTITY.tmp" "IDENTITY" :: l3) := by
  have huidlen : 0 < env.uniqueId.length := str_len_pos _ huid
  have hdb' : (env.destBucket == "") = false := beq_eq_false_iff_ne.mpr hdb
  have hsb' : (env.srcBucket != "") = true := bne_iff_ne.mpr hsb
  -- the IDENTITY fetch outcome
  have hfet : ∀ s1 : LocalState, fetchIdentityStep env s1 =
      .ok ({ s1 with files := setFile "IDENTITY" raw s1.files }, false, true,
           [SanEvent.writeFile "IDENTITY" raw]) := by
    intro s1
    unfold fetchIdentityStep
    rw [hdb']
    simp only [Bool.false_eq_true, if_false, hdfetch]
    simp only [beq_self_eq_true, if_true]
    rw [hsb', hneq]
    simp only [Bool.not_false, Bool.true_and, Bool.and_true, if_true, hsfetch,
      List.nil_append]
  -- reduce the run
  simp only [sanitizeDirectory, htype] at hrun
  simp only [show (CloudType.kAws == CloudType.kNone) = false from rfl,
    show (CloudType.kAws == CloudType.kAws) = true from rfl,
    Bool.false_eq_true, if_false, Bool.not_true, hreinit, hdb', Bool.false_and,
    Bool.not_false, if_true] at hrun
  cases hclean : cleanupStep env.readonly s with
  | error e =>
    rw [hclean] at hrun
    exact Except.noConfusion hrun
  | ok pr =>
    obtain ⟨s1, evsA⟩ := pr
    simp only [hclean, hfet, Bool.not_true, Bool.not_false, Bool.false_and,
      Bool.false_eq_true, if_false, hneq, Bool.true_and, Bool.and_true, if_true,
      lookupFile_setFile_self] at hrun
    simp only [createNewIdentityFile, Except.ok.injEq, Prod.mk.injEq] at hrun
    obtain ⟨hs', hevs⟩ := hrun
    constructor
    · rw [← hs']
      rw [lookupFile_setFile_other _ _ _ (by decide) _]
      exact lookupFile_setFile_self _ _ _
    refine ⟨⟨env.sep ++ env.uniqueId, ?_, ?_⟩, ?_, ?_, ?_⟩
    · rw [String.append_assoc]
    · intro ht
      have := congrArg String.length ht
      rw [String.length_append] at this
      have h0 : ("" : String).length = 0 := rfl
      omega
    · intro he
      have := congrArg String.length he
      rw [String.length_append, String.length_append] at this
      omega
    · rw [← hs']
      rw [lookupFile_setFile_other _ _ _ (by decide) _]
      rw [lookupFile_setFile_other _ _ _ (by decide) _]
      exact lookupFile_removeFile_self _ _
    · refine ⟨evsA ++ [SanEvent.writeFile "IDENTITY" raw], [],
        [SanEvent.writeFile "CURRENT" currentPlaceholderLine], ?_⟩
      rw [← hevs]
      simp

/-- The environment of the C7 witness: a clone bootstrap with source
dbid "abc123", separator "rockset" and unique suffix "u1". -/
def sanEnvClone : SanEnv :=
  { cloudType := CloudType.kAws, srcBucket := "sb", srcPath := "sp",
    destBucket := "db2", destPath := "dp", maxOpenFiles := -1,
    keepLocalSstFiles := true, readonly := false, sep := "rockset",
    uniqueId := "u1", destIdentityFetch := .error Err.notFound,
    srcIdentityFetch := .ok "abc123",
    dirCheck := .error Err.notFound, currentCheck := .ok (),
    identityRead := .error Err.notFound,
    srcLookup := fun _ => .error Err.notFound,
    destLookup := fun _ => .error Err.notFound }

/-- Result of the witness clone bootstrap. -/
def sanResClone : LocalState × List SanEvent :=
  match sanitizeDirectory sanEnvClone { dirExists := false, files := [] } with
  | .ok r => r
  | .error _ => ({ dirExists := false, files := [] }, [])

/-- Witness for C7 at a concrete input: the synthesized dbid is
"abc123rocksetu1", it is the local IDENTITY, and no temporary remains. -/
theorem c7_clone_dbid_lineage_witness :
    lookupFile "IDENTITY" sanResClone.1.files = some "abc123rocksetu1" ∧
    lookupFile "IDENTITY.tmp" sanResClone.1.files = none := by
  have h := c7_clone_dbid_lineage sanEnvClone
    { dirExists := false, files := [] } sanResClone.1 sanResClone.2 "abc123"
    rfl rfl (by decide) (by decide) (by decide) rfl rfl (by decide) rfl
  exact ⟨h.1, h.2.2.2.1⟩

/-- C10: the placeholder manifest name the Sanitizer writes into the
local CURRENT file is the dummy manifest filename the Epoch Roller
reads, followed by a newline — the two components agree on the same
fixed name `MANIFEST-000001`. -/
theorem c10_placeholder_agreement :
    currentPlaceholderLine = dummyManifestBase ++ "\n" := by
  decide

end DbCloud
